import Mathlib

/-!
Shallow embedding of the completion bridge and node lifecycle of the
waku-rust-bindings repository, together with theorems settling the frozen
claims about its natural-language specification.

The definitions mirror, file by file, the Rust sources:
  * `waku-bindings/src/utils.rs` and
    `waku-bindings/src/general/libwaku_response.rs` (result classifier and
    trampoline),
  * `waku-bindings/src/node/mod.rs` (typestate handle, process-wide
    initialized flag),
  * `waku-bindings/src/node/store.rs` (store query),
  * `waku-bindings/src/general/contenttopic.rs` and `messagehash.rs`
    (textual round-trips),
  * `waku-bindings/src/node/events.rs` (event decoding and dispatch),
  * `waku-bindings/src/node/peers.rs` and `legacyfilter.rs` (timeout
    conversion).
-/

namespace Waku

/-- Modelled from the spec: the native ABI status codes, one of
ok / error / missing-callback (the `RET_OK`, `RET_ERR`,
`RET_MISSING_CALLBACK` constants that `waku-sys` generates from the native
header, which is not part of this repository's sources). -/
def RET_OK : Nat := 0

/-- Modelled from the spec: the native error status code. -/
def RET_ERR : Nat := 1

/-- Modelled from the spec: the native missing-callback status code. -/
def RET_MISSING_CALLBACK : Nat := 2

/-- The Rust cast `code as u32` applied to an `i32` value: two's-complement
reinterpretation, i.e. reduction modulo 2^32 into `[0, 2^32)`. -/
def u32cast (code : Int) : Nat := (code.emod 4294967296).toNat

/-- `LibwakuResponse` from `utils.rs` / `general/libwaku_response.rs`:
the four completion outcomes, `Undefined` being the `Default`. -/
inductive LibwakuResponse : Type
  | Success : Option String → LibwakuResponse
  | Failure : String → LibwakuResponse
  | MissingCallback : LibwakuResponse
  | Undefined : LibwakuResponse
deriving DecidableEq, Repr

/-- The default value of `LibwakuResponse` (`#[default] Undefined`). -/
def LibwakuResponse.default : LibwakuResponse := .Undefined

/-- Result of a Rust function that may also `panic!`: `ok`/`err` are the two
`Result` cases and `fatal` records a panic with its message. -/
inductive CallResult (α : Type) : Type
  | ok : α → CallResult α
  | err : String → CallResult α
  | fatal : String → CallResult α
deriving DecidableEq, Repr

/-- `TryFrom<(u32, &str)> for LibwakuResponse` (identical in `utils.rs` and
`general/libwaku_response.rs`): an empty response string becomes `None`;
`RET_OK` maps to `Success`, `RET_ERR` to
`Failure("waku error: " ++ response)`, `RET_MISSING_CALLBACK` to
`MissingCallback`, and any other code is an `Err` of the `TryFrom`. -/
def libwakuTryFrom (ret_code : Nat) (response : String) :
    Except String LibwakuResponse :=
  let opt_value : Option String := if response = "" then none else some response
  if ret_code = RET_OK then .ok (.Success opt_value)
  else if ret_code = RET_ERR then .ok (.Failure ("waku error: " ++ response))
  else if ret_code = RET_MISSING_CALLBACK then .ok .MissingCallback
  else .error ("undefined return code " ++ toString ret_code)

/-- The panic message of the `Undefined` arm of the response handlers. -/
def undefinedStateMsg (code : Int) : String :=
  "undefined ffi state: code(" ++ toString code ++
    ") was returned but callback was not executed"

/-- `handle_no_response` from `utils.rs` (also in
`general/libwaku_response.rs`): the special `Undefined`-with-ok-code case is
checked first, then the four variants are matched. -/
def handle_no_response (code : Int) (result : LibwakuResponse) :
    CallResult Unit :=
  if result = .Undefined ∧ u32cast code = RET_OK then .ok ()
  else
    match result with
    | .Success _ => .ok ()
    | .Failure v => .err v
    | .MissingCallback => .fatal "callback is required"
    | .Undefined => .fatal (undefinedStateMsg code)

/-- `handle_response` from `general/libwaku_response.rs`, parameterized by
the `WakuDecode` instance of the result type; for `StoreResponse` that
instance is `serde_json::from_str(input).expect("could not parse store
resp")`, which panics rather than returning `Err`, so the decoder is
modelled as `String → Option α` with `none` meaning that panic. -/
def handle_response {α : Type} (dec : String → Option α) (code : Int)
    (result : LibwakuResponse) : CallResult α :=
  match result with
  | .Success v =>
    match dec (v.getD "") with
    | some a => .ok a
    | none => .fatal "could not parse store resp"
  | .Failure v => .err v
  | .MissingCallback => .fatal "callback is required"
  | .Undefined => .fatal (undefinedStateMsg code)

/-- Whether a byte is a UTF-8 continuation byte (`0x80 ≤ b ≤ 0xBF`). -/
def isCont (b : Nat) : Bool := 128 ≤ b && b ≤ 191

/-- UTF-8 decoding of a byte list, modelling Rust's `str::from_utf8`
(RFC 3629 validity: no overlong forms, no surrogates, max U+10FFFF);
returns `none` exactly when the bytes are not valid UTF-8. -/
def utf8DecodeGo (acc : List Char) : List Nat → Option (List Char)
  | [] => some acc.reverse
  | b :: rest =>
    if b < 128 then utf8DecodeGo (Char.ofNat b :: acc) rest
    else if b < 194 then none
    else if b ≤ 223 then
      match rest with
      | b2 :: rest2 =>
        if isCont b2 then
          utf8DecodeGo (Char.ofNat ((b - 192) * 64 + (b2 - 128)) :: acc) rest2
        else none
      | [] => none
    else if b ≤ 239 then
      match rest with
      | b2 :: b3 :: rest3 =>
        let lo2 := if b = 224 then 160 else 128
        let hi2 := if b = 237 then 159 else 191
        if lo2 ≤ b2 && b2 ≤ hi2 && isCont b3 then
          utf8DecodeGo
            (Char.ofNat ((b - 224) * 4096 + (b2 - 128) * 64 + (b3 - 128)) :: acc)
            rest3
        else none
      | _ => none
    else if b ≤ 244 then
      match rest with
      | b2 :: b3 :: b4 :: rest4 =>
        let lo2 := if b = 240 then 144 else 128
        let hi2 := if b = 244 then 143 else 191
        if lo2 ≤ b2 && b2 ≤ hi2 && isCont b3 && isCont b4 then
          utf8DecodeGo
            (Char.ofNat ((b - 240) * 262144 + (b2 - 128) * 4096 +
              (b3 - 128) * 64 + (b4 - 128)) :: acc)
            rest4
        else none
      | _ => none
    else none

/-- UTF-8 decode of a full byte list to a string (`str::from_utf8`). -/
def utf8Decode (bytes : List Nat) : Option String :=
  (utf8DecodeGo [] bytes).map String.mk

/-- Outcome of one invocation of the completion trampoline: either the list
of invocations of the user closure it performed, or a panic (from one of the
two `expect`s). -/
inductive TrampOutcome : Type
  | invoked : List LibwakuResponse → TrampOutcome
  | fatal : String → TrampOutcome
deriving DecidableEq, Repr

/-- The `trampoline` of `utils.rs` (identical in `macros.rs`): a null data
pointer (`data = none`) decodes as the empty string, otherwise the
`data_len` bytes are decoded as UTF-8 (`expect` panics on invalid UTF-8);
the pair `(ret_code as u32, response)` is classified through `TryFrom`
(`expect` panics on an unrecognized code) and the resulting
`LibwakuResponse` is passed to the user closure, exactly once. -/
def trampoline (ret_code : Int) (data : Option (List Nat)) : TrampOutcome :=
  let response? : Option String :=
    match data with
    | none => some ""
    | some bytes => utf8Decode bytes
  match response? with
  | none => .fatal "could not retrieve response"
  | some response =>
    match libwakuTryFrom (u32cast ret_code) response with
    | .error _ => .fatal "invalid response obtained from libwaku"
    | .ok r => .invoked [r]

/-- The two inhabited typestate tags of `node/mod.rs` (`Initialized`,
`Running`; both implement the `WakuNodeState` marker trait). -/
inductive NodeState : Type
  | Initialized : NodeState
  | Running : NodeState
deriving DecidableEq, Repr

/-- The methods of `WakuNodeHandle` in `node/mod.rs`, one constructor per
method of its three impl blocks (`startMethod` and the two `stop`s are named
by the impl block that defines them). -/
inductive Method : Type
  | peer_id
  | listen_addresses
  | add_peer
  | startMethod
  | stopInitialized
  | stopRunning
  | connect_peer_with_address
  | connect_peer_with_id
  | disconnect_peer_with_id
  | peer_count
  | peersMethod
  | relay_publish_message
  | relay_enough_peers
  | relay_subscribe
  | relay_unsubscribe
  | relay_topics
  | store_queryMethod
  | local_store_query
  | lightpush_publish
  | filter_subscribe
  | filter_ping
  | filter_unsubscribe
  | filter_unsubscribe_all
  | discv5_update_bootnodes
deriving DecidableEq, Repr

/-- Which impl block of `node/mod.rs` defines each method, rendered as the
set of state tags on which the method is callable: methods of
`impl<State: WakuNodeState> WakuNodeHandle<State>` (`peer_id`,
`listen_addresses`, `add_peer`) are callable on every state; `start` and the
`Initialized` `stop` only on `Initialized`; everything else only on
`Running`. -/
def availableOn (m : Method) (s : NodeState) : Bool :=
  match m with
  | .peer_id => true
  | .listen_addresses => true
  | .add_peer => true
  | .startMethod => s = .Initialized
  | .stopInitialized => s = .Initialized
  | _ => s = .Running

/-- Receiver mode of a Rust method: consuming (`self`), borrowing
(`&self`), or an associated function with no receiver. -/
inductive Receiver : Type
  | consumesSelf
  | byRef
  | noSelf
deriving DecidableEq, Repr

/-- Receiver of each `WakuNodeHandle` method as written in `node/mod.rs`:
`start` and both `stop`s take `self` by value; `discv5_update_bootnodes`
has no receiver; every other method takes `&self`. -/
def receiverOf (m : Method) : Receiver :=
  match m with
  | .startMethod => .consumesSelf
  | .stopInitialized => .consumesSelf
  | .stopRunning => .consumesSelf
  | .discv5_update_bootnodes => .noSelf
  | _ => .byRef

/-- Shape of a method's (successful) return type in `node/mod.rs`:
a reparametrized handle, the unit type, or some other payload type. -/
inductive RetKind : Type
  | handle : NodeState → RetKind
  | unit : RetKind
  | value : RetKind
deriving DecidableEq, Repr

/-- Success return type of each `WakuNodeHandle` method in `node/mod.rs`:
`start` returns `Result<WakuNodeHandle<Running>>`; both `stop`s return
`Result<()>` (not a handle); the no-response operations return
`Result<()>`; the rest return payload-carrying `Result`s. -/
def retKindOf (m : Method) : RetKind :=
  match m with
  | .startMethod => .handle .Running
  | .stopInitialized => .unit
  | .stopRunning => .unit
  | .connect_peer_with_address => .unit
  | .connect_peer_with_id => .unit
  | .disconnect_peer_with_id => .unit
  | .relay_subscribe => .unit
  | .relay_unsubscribe => .unit
  | .filter_ping => .unit
  | .filter_unsubscribe => .unit
  | .filter_unsubscribe_all => .unit
  | .discv5_update_bootnodes => .unit
  | _ => .value

/-- The Running-only operations named by the lifecycle claim: connect to
peer, relay/lightpush publish, relay/filter subscribe and unsubscribe, and
store query. -/
def claimedRunningOnly : List Method :=
  [.connect_peer_with_address, .connect_peer_with_id,
   .relay_publish_message, .lightpush_publish,
   .relay_subscribe, .relay_unsubscribe,
   .filter_subscribe, .filter_unsubscribe,
   .store_queryMethod]

/-- The state-transition methods of the handle (`start` and `stop`). -/
def isTransition (m : Method) : Bool :=
  match m with
  | .startMethod => true
  | .stopInitialized => true
  | .stopRunning => true
  | _ => false

/-- The `WakuNodeHandle<State>` struct of `node/mod.rs` is
`WakuNodeHandle(PhantomData<State>)`: it stores no opaque node reference,
only the zero-size phantom tag. -/
structure WakuNodeHandle (s : NodeState) : Type where
  phantom : Unit
deriving DecidableEq, Repr

/-- Process-wide state relevant to `waku_new` / `stop_node`: the
`WAKU_NODE_INITIALIZED : Mutex<bool>` flag of `node/mod.rs` (mutex acquire
and release are modelled by the steps below being atomic). -/
structure ProcState : Type where
  initialized : Bool
deriving DecidableEq, Repr

/-- A step result: the new process state, whether the native call was made,
and the returned value. -/
structure Step (α : Type) : Type where
  state : ProcState
  nativeCalled : Bool
  result : Except String α
deriving Repr

/-- `waku_new` of `node/mod.rs`: under the lock, if the flag is set return
`Err("Waku node is already initialized")` without touching the native side;
otherwise set the flag and call `management::waku_new`, mapping success to a
fresh `WakuNodeHandle<Initialized>`. `native` is the outcome of the
`management::waku_new` FFI call. -/
def waku_new (s : ProcState) (native : Except String Unit) :
    Step (WakuNodeHandle .Initialized) :=
  if s.initialized then
    { state := s, nativeCalled := false
      result := .error "Waku node is already initialized" }
  else
    { state := { initialized := true }, nativeCalled := true
      result := native.map fun _ => { phantom := () } }

/-- `stop_node` of `node/mod.rs` (the body of both `stop` methods): under
the lock, set the flag to `false`, then call `management::waku_stop` and
discard its payload. -/
def stop_node (_s : ProcState) (native : Except String Unit) : Step Unit :=
  { state := { initialized := false }, nativeCalled := true
    result := native }

/-- `MessageHash` of `general/messagehash.rs`: a 32-byte identifier,
modelled as its byte list (the 32-byte bound is stated where needed). -/
abbrev MessageHash : Type := List Nat

/-- `StoreQueryRequest` of `node/store.rs`, field for field (`request_id`
kept abstract as a string; `pagination_cursor` is the exclusive bound the
next page starts from). -/
structure StoreQueryRequest : Type where
  request_id : String
  include_data : Bool
  pubsub_topic : Option String
  content_topics : List String
  time_start : Option Nat
  time_end : Option Nat
  message_hashes : Option (List MessageHash)
  pagination_cursor : Option MessageHash
  pagination_forward : Bool
  pagination_limit : Option Nat
deriving DecidableEq, Repr

/-- `StoreQueryRequest::new()` from `node/store.rs`, with the two
`get_now_in_nanosecs()` reads and the fresh `Uuid` passed in as values. -/
def StoreQueryRequest.new (request_id : String) (now : Nat) :
    StoreQueryRequest :=
  { request_id := request_id
    include_data := true
    pubsub_topic := none
    content_topics := []
    time_start := some now
    time_end := some now
    message_hashes := none
    pagination_cursor := none
    pagination_forward := true
    pagination_limit := some 25 }

/-- `StoreQueryRequest::with_pagination_cursor` from `node/store.rs`. -/
def StoreQueryRequest.with_pagination_cursor (q : StoreQueryRequest)
    (pagination_cursor : Option MessageHash) : StoreQueryRequest :=
  { q with pagination_cursor := pagination_cursor }

/-- `StoreWakuMessageResponse` of `node/store.rs` (the message body kept
abstract as a string). -/
structure StoreWakuMessageResponse : Type where
  message_hash : MessageHash
  message : String
  pubsub_topic : String
deriving DecidableEq, Repr

/-- `StoreResponse` of `node/store.rs`: one page of results plus the
optional cursor from which a further page can be requested. -/
structure StoreResponse : Type where
  request_id : String
  status_code : Nat
  status_desc : String
  messages : List StoreWakuMessageResponse
  pagination_cursor : Option MessageHash
deriving DecidableEq, Repr

/-- `waku_store_query` of `node/store.rs`: serializes the request and
issues exactly one `waku_sys::waku_store_query` FFI call through
`handle_ffi_call!`, then classifies the completion with `handle_response`.
`native` stands for the native call at the level of the (structured)
serialized request, returning the status code and the callback's
completion; `dec` is the `WakuDecode` JSON parse of `StoreResponse`.  The
first component of the result is the list of native requests issued. -/
def waku_store_query (native : StoreQueryRequest → Int × LibwakuResponse)
    (dec : String → Option StoreResponse) (query : StoreQueryRequest) :
    List StoreQueryRequest × CallResult StoreResponse :=
  let (code, result) := native query
  ([query], handle_response dec code result)

/-- Modelled from the spec: the Paginated Query Walker of spec section 4.6,
which does not exist anywhere in the sources (`node/store.rs` issues a
single call and returns the page as-is).  One call per page; each further
request is the first request with its cursor replaced by the previous
response's cursor; an absent cursor stops the walk; the accumulated items
are reversed before returning.  `fuel` bounds the recursion (the spec's
walk runs until the cursor is absent). -/
def specStoreWalk (native : StoreQueryRequest → Int × LibwakuResponse)
    (dec : String → Option StoreResponse) (first : StoreQueryRequest) :
    Nat → StoreQueryRequest → List StoreWakuMessageResponse →
    List StoreQueryRequest →
    List StoreQueryRequest × CallResult (List StoreWakuMessageResponse)
  | 0, _, _, trace => (trace.reverse, .fatal "out of fuel")
  | fuel + 1, q, acc, trace =>
    let (code, result) := native q
    match handle_response dec code result with
    | .ok page =>
      let acc := acc ++ page.messages
      match page.pagination_cursor with
      | none => ((q :: trace).reverse, .ok acc.reverse)
      | some c =>
        specStoreWalk native dec first fuel
          (first.with_pagination_cursor (some c)) acc (q :: trace)
    | .err e => ((q :: trace).reverse, .err e)
    | .fatal e => ((q :: trace).reverse, .fatal e)

/-- Modelled from the spec: entry point of the Paginated Query Walker
(spec section 4.6): start from the caller's request with no cursor,
accumulate pages, and return the accumulated items reversed
(most-recent-first). -/
def specStoreWalker (native : StoreQueryRequest → Int × LibwakuResponse)
    (dec : String → Option StoreResponse) (fuel : Nat)
    (first : StoreQueryRequest) :
    List StoreQueryRequest × CallResult (List StoreWakuMessageResponse) :=
  specStoreWalk native dec first fuel first [] []

/-- Rust `char` lowercasing as used by `str::to_lowercase`, modelled on
the ASCII range, where Unicode lowercasing maps exactly the letters
`A`-`Z` down by 32 and fixes every other character.  Outside ASCII the
model is not faithful (Unicode has further case mappings), so every
theorem that lowercases a string restricts that string to ASCII. -/
def rustCharToLower (c : Char) : Char :=
  if 'A' ≤ c ∧ c ≤ 'Z' then Char.ofNat (c.toNat + 32) else c

/-- Rust `str::to_lowercase`, modelled on ASCII strings (see
`rustCharToLower`); theorems only apply it under an ASCII hypothesis. -/
def rustToLower (s : String) : String := ⟨s.data.map rustCharToLower⟩

/-- The `Encoding` enum of `general/contenttopic.rs`. -/
inductive Encoding : Type
  | Proto
  | Rlp
  | Rfc26
  | Unknown : String → Encoding
deriving DecidableEq, Repr

/-- `FromStr for Encoding` from `general/contenttopic.rs`: lowercase the
input, map the three known encodings, and keep anything else (already
lowercased) in `Unknown`; this parse never fails. -/
def Encoding.fromStr (s : String) : Encoding :=
  let l := rustToLower s
  if l = "proto" then .Proto
  else if l = "rlp" then .Rlp
  else if l = "rfc26" then .Rfc26
  else .Unknown l

/-- `Display for Encoding` from `general/contenttopic.rs`. -/
def Encoding.render : Encoding → String
  | .Proto => "proto"
  | .Rlp => "rlp"
  | .Rfc26 => "rfc26"
  | .Unknown value => value

/-- `WakuContentTopic` of `general/contenttopic.rs` (the `Cow` fields are
plain strings here). -/
structure WakuContentTopic : Type where
  application_name : String
  version : String
  content_topic_name : String
  encoding : Encoding
deriving DecidableEq, Repr

/-- All decompositions `l = before ++ slash :: after` of a character list
around one of its `/` characters, in order of increasing position of the
slash (the backtracking order of a lazy regex group followed by a literal
`/`). -/
def slashSplits : List Char → List (List Char × List Char)
  | [] => []
  | c :: rest =>
    (if c = '/' then [(([] : List Char), rest)] else []) ++
      (slashSplits rest).map fun p => (c :: p.1, p.2)

/-- `FromStr for WakuContentTopic` from `general/contenttopic.rs`:
`scanf!(s, "/{}/{}/{}/{:/.+?/}", String, String, String, Encoding)`, i.e.
the anchored regex `/(.+?)/(.+?)/(.+?)/(.+?)` with lazy groups, the last
capture fed to `Encoding::from_str`.  Implemented as the regex's
backtracking search: the first three groups take the shortest nonempty
prefixes (in preference order) such that the nonempty remainder forms the
fourth group.  A candidate is viable only if the captured group contains
no newline, because the regex metacharacter for "any character" does not
match a newline by default, so an alternative whose group would span one
fails and backtracking moves on — a string is accepted exactly when all
four captured components are newline-free. -/
def parseTopicBody (t : List Char) : Option WakuContentTopic :=
  (slashSplits t).findSome? fun a =>
    if a.1 = [] then none
    else if '\n' ∈ a.1 then none
    else
      (slashSplits a.2).findSome? fun b =>
        if b.1 = [] then none
        else if '\n' ∈ b.1 then none
        else
          (slashSplits b.2).findSome? fun c =>
            if c.1 = [] then none
            else if '\n' ∈ c.1 then none
            else if c.2 = [] then none
            else if '\n' ∈ c.2 then none
            else
              some
                { application_name := ⟨a.1⟩
                  version := ⟨b.1⟩
                  content_topic_name := ⟨c.1⟩
                  encoding := Encoding.fromStr ⟨c.2⟩ }

/-- `FromStr for WakuContentTopic`: the string must start with `/` and its
remainder is matched by `parseTopicBody` (the body of the anchored
regex). -/
def contentTopicFromStr (s : String) : Option WakuContentTopic :=
  match s.data with
  | '/' :: t => parseTopicBody t
  | _ => none

/-- `Display for WakuContentTopic` from `general/contenttopic.rs`. -/
def contentTopicRender (t : WakuContentTopic) : String :=
  "/" ++ t.application_name ++ "/" ++ t.version ++ "/" ++
    t.content_topic_name ++ "/" ++ t.encoding.render

/-- The canonical slash-delimited textual form of a content topic. -/
def canonicalTopic (app ver name enc : String) : String :=
  "/" ++ app ++ "/" ++ ver ++ "/" ++ name ++ "/" ++ enc

/-- Uppercase hexadecimal digit of a value below 16, as produced by Rust's
`write!(output, "{b:02X}")`. -/
def hexDigitOfNat (n : Nat) : Char :=
  if n < 10 then Char.ofNat (48 + n) else Char.ofNat (55 + n)

/-- The two uppercase hex digits of one byte (`"{b:02X}"`). -/
def byteToHex (b : Nat) : List Char := [hexDigitOfNat (b / 16), hexDigitOfNat (b % 16)]

/-- `MessageHash::to_hex_string` from `general/messagehash.rs`: fold the 32
bytes into their concatenated uppercase-hex rendering (no `0x`). -/
def to_hex_string (bytes : MessageHash) : String :=
  ⟨bytes.flatMap byteToHex⟩

/-- Value of one hex character, case-insensitive, as accepted by the `hex`
crate's `Vec::from_hex`. -/
def hexCharVal (c : Char) : Option Nat :=
  if '0' ≤ c ∧ c ≤ '9' then some (c.toNat - 48)
  else if 'a' ≤ c ∧ c ≤ 'f' then some (c.toNat - 87)
  else if 'A' ≤ c ∧ c ≤ 'F' then some (c.toNat - 55)
  else none

/-- Hex decoding of a character list into bytes (`hex::Vec::from_hex`):
consumes two digits per byte, fails on a non-digit or an odd length. -/
def hexDecode : List Char → Option (List Nat)
  | [] => some []
  | [_] => none
  | c1 :: c2 :: rest =>
    match hexCharVal c1, hexCharVal c2 with
    | some h, some l => (hexDecode rest).map fun bs => (h * 16 + l) :: bs
    | _, _ => none

/-- Rust `s.strip_prefix("0x").unwrap_or(s)` at the character level. -/
def strip0x (l : List Char) : List Char :=
  match l with
  | c1 :: c2 :: rest => if c1 = '0' ∧ c2 = 'x' then rest else c1 :: c2 :: rest
  | _ => l

/-- `FromStr for MessageHash` from `general/messagehash.rs`: strip an
optional `0x`, hex-decode, and require exactly 32 bytes. -/
def messageHashFromStr (s : String) : Option MessageHash :=
  match hexDecode (strip0x s.data) with
  | none => none
  | some bytes => if bytes.length = 32 then some bytes else none

/-- A raw, undecoded JSON value (`serde_json::Value`), kept as its text. -/
abbrev RawJson : Type := String

/-- `WakuMessage` as consumed by the event dispatcher of `node/events.rs`
(only its `payload: Vec<u8>` field is read there). -/
structure WakuMessage : Type where
  payload : List Nat
deriving DecidableEq, Repr

/-- `WakuMessageEvent` of `node/events.rs`. -/
structure WakuMessageEvent : Type where
  pubsub_topic : String
  message_hash : MessageHash
  waku_message : WakuMessage
deriving DecidableEq, Repr

/-- The `Event` enum of `node/events.rs`: exactly two variants,
`WakuMessage` (serde tag `"message"`) and `Unrecognized` (serde tag
`"unrecognized"`, carrying the raw value). -/
inductive Event : Type
  | WakuMessage : WakuMessageEvent → Event
  | Unrecognized : RawJson → Event
deriving DecidableEq, Repr

/-- Serde's decoding of the internally tagged `Event` enum
(`#[serde(tag = "eventType", rename_all = "camelCase")]` with
`#[serde(rename = "message")]` on the first variant): the `eventType` tag
selects the variant, an unknown tag is an error; `dm` is the derived
decoder of `WakuMessageEvent`'s content (`none` for malformed content). -/
def eventDecode (dm : RawJson → Option WakuMessageEvent) (tag : String)
    (raw : RawJson) : Except String Event :=
  if tag = "message" then
    match dm raw with
    | some evt => .ok (.WakuMessage evt)
    | none => .error "invalid message event content"
  else if tag = "unrecognized" then .ok (.Unrecognized raw)
  else .error ("unknown variant " ++ tag)

/-- What one invocation of the event dispatcher does. -/
inductive CallbackOutcome : Type
  | handled
  | loggedUtf8Error
  | panicked : String → CallbackOutcome
  | ignored
deriving DecidableEq, Repr

/-- `waku_event_callback` of `node/events.rs`: a `Success` response has its
payload unwrapped (`v.unwrap()`: panic on `None`) and parsed
(`expect("Parsing event to succeed")`: panic on a parse error); a decoded
`WakuMessage` event has its payload UTF-8 decoded (a decode failure is only
logged); a decoded `Unrecognized` event hits
`panic!("Unrecognized waku event: ...")`; non-`Success` responses fall out
of the `if let` and are ignored.  `parse` is `serde_json::from_str::<Event>`. -/
def waku_event_callback (parse : String → Except String Event)
    (response : LibwakuResponse) : CallbackOutcome :=
  match response with
  | .Success v =>
    match v with
    | none => .panicked "called Option unwrap on a None value"
    | some s =>
      match parse s with
      | .error _ => .panicked "Parsing event to succeed"
      | .ok (.WakuMessage evt) =>
        match utf8Decode evt.waku_message.payload with
        | some _ => .handled
        | none => .loggedUtf8Error
      | .ok (.Unrecognized _) => .panicked "Unrecognized waku event"
  | _ => .ignored

/-- `i32::MAX`. -/
def i32Max : Nat := 2147483647

/-- The timeout-to-milliseconds conversion of
`waku_connect_peer_with_address` and `waku_connect_peer_with_id` in
`node/peers.rs`:
`timeout.map(|d| d.as_millis().try_into().unwrap_or(i32::MAX)).unwrap_or(0)`
with the duration given by its millisecond count. -/
def connect_timeout_millis (timeout : Option Nat) : Int :=
  match timeout with
  | some ms => if ms ≤ i32Max then (ms : Int) else (i32Max : Int)
  | none => 0

/-- The timeout-to-milliseconds conversion of
`waku_legacy_filter_subscribe` and `waku_legacy_filter_unsubscribe` in
`node/legacyfilter.rs`:
`timeout.as_millis().try_into().expect("Duration as milliseconds should fit
in a i32")` — `none` models the `expect` panic when the value does not
fit. -/
def legacy_filter_timeout_millis (ms : Nat) : Option Int :=
  if ms ≤ i32Max then some (ms : Int) else none

/-- A concrete store item used by the three-page native stub. -/
def stubMsg (i : Nat) : StoreWakuMessageResponse :=
  { message_hash := [i], message := "m" ++ toString i, pubsub_topic := "t" }

/-- The caller's first store request of the three-page scenario. -/
def storeStubQuery : StoreQueryRequest := StoreQueryRequest.new "req" 0

/-- Concrete three-page native store stub: the response payload is selected
by the request's cursor (no cursor, then cursor `[1]`, then cursor `[2]`),
always completing with status ok. -/
def storeStubNative (q : StoreQueryRequest) : Int × LibwakuResponse :=
  match q.pagination_cursor with
  | none => (0, .Success (some "page1"))
  | some [1] => (0, .Success (some "page2"))
  | some [2] => (0, .Success (some "page3"))
  | _ => (0, .Failure "no such page")

/-- First page of the stub: items 1 and 2, next cursor `[1]`. -/
def storeStubPage1 : StoreResponse :=
  { request_id := "req", status_code := 200, status_desc := "ok"
    messages := [stubMsg 1, stubMsg 2], pagination_cursor := some [1] }

/-- Second page of the stub: items 3 and 4, next cursor `[2]`. -/
def storeStubPage2 : StoreResponse :=
  { request_id := "req", status_code := 200, status_desc := "ok"
    messages := [stubMsg 3, stubMsg 4], pagination_cursor := some [2] }

/-- Third page of the stub: items 5 and 6, no further cursor. -/
def storeStubPage3 : StoreResponse :=
  { request_id := "req", status_code := 200, status_desc := "ok"
    messages := [stubMsg 5, stubMsg 6], pagination_cursor := none }

/-- The stub's decoder, mapping the three payloads to their pages. -/
def storeStubDec (s : String) : Option StoreResponse :=
  if s = "page1" then some storeStubPage1
  else if s = "page2" then some storeStubPage2
  else if s = "page3" then some storeStubPage3
  else none

/-- All six stub items in reverse-page order (most recent first), the
result the spec's walker produces for the three-page stub. -/
def storeStubSixReversed : List StoreWakuMessageResponse :=
  [stubMsg 6, stubMsg 5, stubMsg 4, stubMsg 3, stubMsg 2, stubMsg 1]

/-- C1: `handle_no_response` returns `Ok(())` on `Success` (with or
without payload) and on `Undefined` when the returned code equals the ok
status (the documented ok-without-callback asymmetry); it returns the
`Failure` message as `Err`; it panics on `MissingCallback` and on
`Undefined` with a non-ok code. -/
theorem C1_handle_no_response_classification (code : Int) (v : Option String)
    (msg : String) :
    handle_no_response code (.Success v) = .ok ()
      ∧ (u32cast code = RET_OK → handle_no_response code .Undefined = .ok ())
      ∧ handle_no_response code (.Failure msg) = .err msg
      ∧ handle_no_response code .MissingCallback = .fatal "callback is required"
      ∧ (u32cast code ≠ RET_OK →
          handle_no_response code .Undefined = .fatal (undefinedStateMsg code)) := by
  refine ⟨?_, fun h => ?_, ?_, ?_, fun h => ?_⟩
  · simp [handle_no_response]
  · simp [handle_no_response, h]
  · simp [handle_no_response]
  · simp [handle_no_response]
  · simp [handle_no_response, h]

/-- Witness for C1 at concrete inputs: code 0 is the ok status, code 3 is
not. -/
theorem C1_handle_no_response_classification_witness :
    handle_no_response 0 .Undefined = .ok ()
      ∧ handle_no_response 3 .Undefined = .fatal (undefinedStateMsg 3)
      ∧ handle_no_response 1 (.Failure "boom") = .err "boom" :=
  ⟨(C1_handle_no_response_classification 0 none "boom").2.1 (by decide),
   (C1_handle_no_response_classification 3 none "boom").2.2.2.2 (by decide),
   (C1_handle_no_response_classification 1 none "boom").2.2.1⟩

/-- C4 counterexample: the classifier does not pass the native error
message through byte-for-byte — it prepends `"waku error: "`. -/
theorem C4_counterexample :
    libwakuTryFrom RET_ERR "boom" = .ok (.Failure "waku error: boom")
      ∧ "waku error: boom" ≠ "boom" := by
  constructor
  · rfl
  · decide

/-- C4 amended: the typed error carries the native message prefixed with
`"waku error: "` (added once by the `TryFrom` classifier); from the
classifier upward (`handle_no_response`, `handle_response`) the message
propagates unchanged through every layer. -/
theorem C4_error_message_propagation (m : String) (code : Int) (v : String) :
    libwakuTryFrom RET_ERR m = .ok (.Failure ("waku error: " ++ m))
      ∧ handle_no_response code (.Failure v) = .err v
      ∧ (∀ (α : Type) (dec : String → Option α),
          handle_response dec code (.Failure v) = .err v) := by
  refine ⟨?_, ?_, fun α dec => rfl⟩
  · simp [libwakuTryFrom, RET_ERR, RET_OK, RET_MISSING_CALLBACK]
  · simp [handle_no_response]

/-- C9 counterexample: for the legacy-filter calls the conversion is not
clamped — a duration of 2^31 milliseconds hits the
`expect("Duration as milliseconds should fit in a i32")` panic (modelled
as `none`), while the connect-peer conversion clamps the same value. -/
theorem C9_counterexample :
    legacy_filter_timeout_millis 2147483648 = none
      ∧ connect_timeout_millis (some 2147483648) = (2147483647 : Int) := by
  constructor
  · decide
  · decide

/-- C9 amended: in `waku_connect_peer_with_address` and
`waku_connect_peer_with_id` the millisecond value equals the duration when
it fits in `i32` and is clamped to `i32::MAX` otherwise (absence of a
timeout maps to 0); in `waku_legacy_filter_subscribe` and
`waku_legacy_filter_unsubscribe` the value equals the duration when it
fits, but the conversion aborts (panics) instead of clamping when it does
not. -/
theorem C9_timeout_conversion (ms : Nat) :
    (ms ≤ i32Max → connect_timeout_millis (some ms) = (ms : Int))
      ∧ (i32Max < ms → connect_timeout_millis (some ms) = (i32Max : Int))
      ∧ connect_timeout_millis none = 0
      ∧ (ms ≤ i32Max → legacy_filter_timeout_millis ms = some (ms : Int))
      ∧ (i32Max < ms → legacy_filter_timeout_millis ms = none) := by
  refine ⟨fun h => ?_, fun h => ?_, rfl, fun h => ?_, fun h => ?_⟩
  · simp [connect_timeout_millis, h]
  · have h' : ¬ ms ≤ i32Max := by omega
    simp [connect_timeout_millis, h']
  · simp [legacy_filter_timeout_millis, h]
  · have h' : ¬ ms ≤ i32Max := by omega
    simp [legacy_filter_timeout_millis, h']

/-- Witness for C9 at concrete inputs: 5 ms fits, 2^31 ms does not. -/
theorem C9_timeout_conversion_witness :
    connect_timeout_millis (some 5) = (5 : Int)
      ∧ legacy_filter_timeout_millis 2200000000 = none :=
  ⟨(C9_timeout_conversion 5).1 (by decide),
   (C9_timeout_conversion 2200000000).2.2.2.2 (by decide)⟩

/-- C10: at most one waku node per process — once `waku_new` has succeeded
the flag is set and every further `waku_new` returns
`Err("Waku node is already initialized")` without touching the native
side and without changing the state; `stop_node` resets the flag, after
which `waku_new` (with a successful native creation) succeeds again. -/
theorem C10_single_node_per_process (native : Except String Unit) :
    (waku_new { initialized := false } (.ok ())).result = .ok { phantom := () }
      ∧ (waku_new { initialized := false } (.ok ())).state.initialized = true
      ∧ waku_new (waku_new { initialized := false } (.ok ())).state native
          = { state := { initialized := true }, nativeCalled := false
              result := .error "Waku node is already initialized" }
      ∧ (stop_node (waku_new { initialized := false } (.ok ())).state (.ok ())).state.initialized
          = false
      ∧ (waku_new
            (stop_node (waku_new { initialized := false } (.ok ())).state (.ok ())).state
            (.ok ())).result = .ok { phantom := () } := by
  refine ⟨rfl, rfl, ?_, rfl, rfl⟩
  simp [waku_new, stop_node]

/-- C2 counterexample: listen-address enumeration is defined in the
state-generic impl block, so it is available on an `Initialized` handle —
it is not reachable only on `Running`. -/
theorem C2_counterexample :
    availableOn .listen_addresses .Initialized = true
      ∧ ¬ (∀ s, availableOn .listen_addresses s = true → s = .Running) := by
  refine ⟨rfl, fun h => ?_⟩
  exact absurd (h .Initialized rfl) (by decide)

/-- C2 amended: of the listed operations, connect-to-peer, relay/lightpush
publish, relay/filter subscribe and unsubscribe, and store-query are
reachable only on a `Running` handle, and every state transition (`start`
and both `stop`s) consumes the handle; listen-address enumeration, however,
lives in the state-generic impl block and is available on both states, in
particular on an `Initialized` handle. -/
theorem C2_running_only_gating :
    (∀ m ∈ claimedRunningOnly, ∀ s, availableOn m s = true → s = .Running)
      ∧ (∀ m, isTransition m = true → receiverOf m = .consumesSelf)
      ∧ availableOn .listen_addresses .Initialized = true
      ∧ availableOn .listen_addresses .Running = true := by
  refine ⟨?_, ?_, rfl, rfl⟩
  · intro m hm s h
    fin_cases hm <;> cases s <;> simp_all [availableOn]
  · intro m hm
    cases m <;> simp_all [isTransition, receiverOf]

/-- Witness for C2 at a concrete input: store-query is in the list and is
available on `Running`. -/
theorem C2_running_only_gating_witness :
    availableOn .store_queryMethod .Running = true
      ∧ NodeState.Running = NodeState.Running :=
  ⟨by decide,
   C2_running_only_gating.1 .store_queryMethod (by decide) .Running (by decide)⟩

/-- C3 counterexample: `WakuNodeHandle<Running>::stop` returns
`Result<()>`, not a handle in the `Initialized` state. -/
theorem C3_counterexample :
    retKindOf .stopRunning = .unit
      ∧ retKindOf .stopRunning ≠ .handle .Initialized := by
  refine ⟨rfl, ?_⟩
  decide

/-- C3 amended: `stop` on a `Running` handle consumes it but returns
`Result<()>`, not an `Initialized` handle; the handle carries no opaque
node reference at all (it is only a `PhantomData` tag, so any two handles
of a state are equal); `stop_node` resets the process-wide initialized
flag, after which a fresh `Initialized` handle must be obtained from
`waku_new`, which then succeeds when native creation succeeds. -/
theorem C3_stop_semantics (s : ProcState) (native : Except String Unit)
    (st : NodeState) (h1 h2 : WakuNodeHandle st) :
    receiverOf .stopRunning = .consumesSelf
      ∧ retKindOf .stopRunning = .unit
      ∧ h1 = h2
      ∧ (stop_node s native).state.initialized = false
      ∧ (waku_new (stop_node s native).state (.ok ())).result
          = .ok { phantom := () } := by
  refine ⟨rfl, rfl, ?_, rfl, rfl⟩
  cases h1
  cases h2
  rfl

/-- C5: the trampoline decodes a null data pointer as the empty string; an
ok code with empty text classifies as `Success(None)` and with non-empty
text as `Success(Some(text))`; the error code classifies as `Failure`; the
missing-callback code as `MissingCallback`; any other code and any
non-UTF8 payload is a fatal decoding error; and the outcome is delivered
to the waiting closure exactly once. -/
theorem C5_trampoline_classification :
    (∀ code, trampoline code none = trampoline code (some []))
      ∧ (∀ code, u32cast code = RET_OK →
          trampoline code none = .invoked [.Success none])
      ∧ (∀ code bytes s, u32cast code = RET_OK → utf8Decode bytes = some s →
          s ≠ "" → trampoline code (some bytes) = .invoked [.Success (some s)])
      ∧ (∀ code bytes s, u32cast code = RET_ERR → utf8Decode bytes = some s →
          trampoline code (some bytes)
            = .invoked [.Failure ("waku error: " ++ s)])
      ∧ (∀ code bytes s, u32cast code = RET_MISSING_CALLBACK →
          utf8Decode bytes = some s →
          trampoline code (some bytes) = .invoked [.MissingCallback])
      ∧ (∀ code bytes s, utf8Decode bytes = some s → u32cast code ≠ RET_OK →
          u32cast code ≠ RET_ERR → u32cast code ≠ RET_MISSING_CALLBACK →
          trampoline code (some bytes)
            = .fatal "invalid response obtained from libwaku")
      ∧ (∀ code bytes, utf8Decode bytes = none →
          trampoline code (some bytes) = .fatal "could not retrieve response")
      ∧ (∀ code data calls, trampoline code data = .invoked calls →
          calls.length = 1) := by
  refine ⟨?_, ?_, ?_, ?_, ?_, ?_, ?_, ?_⟩
  · intro code
    rfl
  · intro code h
    simp [trampoline, libwakuTryFrom, h]
  · intro code bytes s h hd hs
    simp [trampoline, libwakuTryFrom, h, hd, hs]
  · intro code bytes s h hd
    simp [trampoline, libwakuTryFrom, h, hd, RET_OK, RET_ERR,
      RET_MISSING_CALLBACK]
  · intro code bytes s h hd
    simp [trampoline, libwakuTryFrom, h, hd, RET_OK, RET_ERR,
      RET_MISSING_CALLBACK]
  · intro code bytes s hd h1 h2 h3
    simp [trampoline, libwakuTryFrom, hd, h1, h2, h3]
  · intro code bytes hd
    simp [trampoline, hd]
  · intro code data calls h
    rcases data with _ | bytes
    · rcases hl : libwakuTryFrom (u32cast code) "" with e | r
      · simp [trampoline, hl] at h
      · simp [trampoline, hl] at h
        simp [← h]
    · rcases hd : utf8Decode bytes with _ | s
      · simp [trampoline, hd] at h
      · rcases hl : libwakuTryFrom (u32cast code) s with e | r
        · simp [trampoline, hd, hl] at h
        · simp [trampoline, hd, hl] at h
          simp [← h]

/-- Witness for C5 at concrete inputs: ok with text `"h"`, error with text
`"b"`, missing-callback code 2, unrecognized code 7, and the non-UTF8
byte 255. -/
theorem C5_trampoline_classification_witness :
    trampoline 0 (some [104]) = .invoked [.Success (some "h")]
      ∧ trampoline 1 (some [98]) = .invoked [.Failure "waku error: b"]
      ∧ trampoline 2 (some [97]) = .invoked [.MissingCallback]
      ∧ trampoline 7 (some [97])
          = .fatal "invalid response obtained from libwaku"
      ∧ trampoline 0 (some [255]) = .fatal "could not retrieve response" :=
  ⟨C5_trampoline_classification.2.2.1 0 [104] "h" (by decide) (by decide)
      (by decide),
   C5_trampoline_classification.2.2.2.1 1 [98] "b" (by decide) (by decide),
   C5_trampoline_classification.2.2.2.2.1 2 [97] "a" (by decide) (by decide),
   C5_trampoline_classification.2.2.2.2.2.1 7 [97] "a" (by decide) (by decide)
      (by decide) (by decide),
   C5_trampoline_classification.2.2.2.2.2.2.1 0 [255] (by decide)⟩

/-- C6 counterexample: on the three-page native stub, `waku_store_query`
issues exactly one native call (not three) and returns the first page's
two items in their native order (not six items in reverse-page order). -/
theorem C6_counterexample :
    waku_store_query storeStubNative storeStubDec storeStubQuery
        = ([storeStubQuery], .ok storeStubPage1)
      ∧ (waku_store_query storeStubNative storeStubDec storeStubQuery).1.length
          ≠ 3
      ∧ storeStubPage1.messages ≠ storeStubSixReversed := by
  refine ⟨by decide, by decide, by decide⟩

/-- C6 amended: `waku_store_query` issues exactly one native request per
invocation — the caller's request, whose cursor is exactly what
`with_pagination_cursor` set on it — and on a successfully decoded
completion returns the decoded page unchanged (its items in native order
and its optional cursor included; in particular an empty page is an
empty `Ok` result, not an error); pagination is left to the caller.  The
spec's walker, by contrast, reaches all three stub pages in three calls
(each later request being the first with the previous response's cursor)
and returns the six items in reverse-page order. -/
theorem C6_store_query_single_call
    (native : StoreQueryRequest → Int × LibwakuResponse)
    (dec : String → Option StoreResponse) (q : StoreQueryRequest)
    (c : Option MessageHash) (code : Int) (s : String) (r : StoreResponse) :
    (waku_store_query native dec q).1 = [q]
      ∧ (q.with_pagination_cursor c).pagination_cursor = c
      ∧ (native q = (code, .Success (some s)) → dec s = some r →
          (waku_store_query native dec q).2 = .ok r)
      ∧ specStoreWalker storeStubNative storeStubDec 10 storeStubQuery
          = ([storeStubQuery,
              storeStubQuery.with_pagination_cursor (some [1]),
              storeStubQuery.with_pagination_cursor (some [2])],
             .ok storeStubSixReversed) := by
  refine ⟨rfl, rfl, fun hn hd => ?_, by decide⟩
  simp [waku_store_query, hn, handle_response, hd]

/-- Witness for C6 at the concrete stub: the single call returns the first
page as-is. -/
theorem C6_store_query_single_call_witness :
    (waku_store_query storeStubNative storeStubDec storeStubQuery).2
        = .ok storeStubPage1 :=
  (C6_store_query_single_call storeStubNative storeStubDec storeStubQuery
      none 0 "page1" storeStubPage1).2.2.1 (by decide) (by decide)

/-- C8 counterexample: decoding a payload whose `eventType` tag is none of
the recognized kinds is a serde error (the internally tagged enum rejects
unknown tags), not the `Unrecognized` variant; and dispatching a decoded
`Unrecognized` event through `waku_event_callback` panics. -/
theorem C8_counterexample :
    eventDecode (fun _ => none) "topicHealthChange" "raw"
        = .error "unknown variant topicHealthChange"
      ∧ eventDecode (fun _ => none) "topicHealthChange" "raw"
          ≠ .ok (.Unrecognized "raw")
      ∧ waku_event_callback (fun _ => .ok (.Unrecognized "raw"))
          (.Success (some "payload")) = .panicked "Unrecognized waku event" := by
  refine ⟨rfl, fun h => Except.noConfusion h, rfl⟩

/-- C8 amended: the `Event` enum has exactly the variants `WakuMessage`
(tag `"message"`) and `Unrecognized` (tag `"unrecognized"`, carrying the
raw value); a payload with any other tag is a decode error, which
`waku_event_callback` escalates to a panic via its `expect`, and even a
successfully decoded `Unrecognized` event makes `waku_event_callback`
panic; only `Success` responses carrying a decodable `"message"` payload
are dispatched without panicking, and non-`Success` responses are
ignored. -/
theorem C8_event_decode_and_dispatch (dm : RawJson → Option WakuMessageEvent)
    (tag : String) (raw : RawJson) (parse : String → Except String Event)
    (s e : String) (v : RawJson) (evt : WakuMessageEvent) (txt : String) :
    (tag ≠ "message" → tag ≠ "unrecognized" →
        eventDecode dm tag raw = .error ("unknown variant " ++ tag))
      ∧ eventDecode dm "unrecognized" raw = .ok (.Unrecognized raw)
      ∧ (dm raw = some evt →
          eventDecode dm "message" raw = .ok (.WakuMessage evt))
      ∧ (parse s = .error e →
          waku_event_callback parse (.Success (some s))
            = .panicked "Parsing event to succeed")
      ∧ (parse s = .ok (.Unrecognized v) →
          waku_event_callback parse (.Success (some s))
            = .panicked "Unrecognized waku event")
      ∧ (parse s = .ok (.WakuMessage evt) →
          utf8Decode evt.waku_message.payload = some txt →
          waku_event_callback parse (.Success (some s)) = .handled)
      ∧ waku_event_callback parse (.Failure e) = .ignored
      ∧ waku_event_callback parse .Undefined = .ignored := by
  refine ⟨fun h1 h2 => ?_, ?_, fun h => ?_, fun h => ?_, fun h => ?_,
    fun h hu => ?_, rfl, rfl⟩
  · simp [eventDecode, h1, h2]
  · simp [eventDecode]
  · simp [eventDecode, h]
  · simp [waku_event_callback, h]
  · simp [waku_event_callback, h]
  · simp [waku_event_callback, h, hu]

/-- Witness for C8 at concrete inputs: the tag `"peerChange"` is rejected,
and a parser producing an `Unrecognized` event makes the dispatcher
panic. -/
theorem C8_event_decode_and_dispatch_witness :
    eventDecode (fun _ => none) "peerChange" "x"
        = .error "unknown variant peerChange"
      ∧ waku_event_callback (fun _ => .ok (.Unrecognized "x"))
          (.Success (some "s")) = .panicked "Unrecognized waku event" :=
  ⟨(C8_event_decode_and_dispatch (fun _ => none) "peerChange" "x"
        (fun _ => .ok (.Unrecognized "x")) "s" "e" "x"
        { pubsub_topic := "t", message_hash := [], waku_message := { payload := [] } }
        "").1 (by decide) (by decide),
   (C8_event_decode_and_dispatch (fun _ => none) "peerChange" "x"
        (fun _ => .ok (.Unrecognized "x")) "s" "e" "x"
        { pubsub_topic := "t", message_hash := [], waku_message := { payload := [] } }
        "").2.2.2.2.1 rfl⟩

/-- Rendering the parse of an encoding string yields its lowercasing:
the three known encodings render as their lowercase names and everything
else is kept, already lowercased, in `Unknown`. -/
theorem encoding_render_fromStr (e : String) :
    (Encoding.fromStr e).render = rustToLower e := by
  by_cases h1 : rustToLower e = "proto"
  · simp [Encoding.fromStr, Encoding.render, h1]
  · by_cases h2 : rustToLower e = "rlp"
    · simp [Encoding.fromStr, Encoding.render, h1, h2]
    · by_cases h3 : rustToLower e = "rfc26"
      · simp [Encoding.fromStr, Encoding.render, h1, h2, h3]
      · simp [Encoding.fromStr, Encoding.render, h1, h2, h3]

/-- Decomposition of `slashSplits` at the first slash, when the prefix
before it is slash-free. -/
theorem slashSplits_append (a r : List Char) (ha : '/' ∉ a) :
    slashSplits (a ++ '/' :: r)
      = (a, r) :: (slashSplits r).map fun p => (a ++ '/' :: p.1, p.2) := by
  induction a with
  | nil => simp [slashSplits]
  | cons c a ih =>
    have hc : ¬ c = '/' := fun h => ha (h ▸ List.mem_cons_self c a)
    have ha' : '/' ∉ a := fun h => ha (List.mem_cons_of_mem c h)
    simp [slashSplits, hc, ih ha', List.map_map, Function.comp]

/-- On a canonical body — three slash-free, newline-free, nonempty
components followed by a nonempty newline-free encoding — the lazy-regex
parse captures exactly those four components. -/
theorem parseTopicBody_canonical (app ver name enc : List Char)
    (happ : app ≠ []) (hva : '/' ∉ app) (hna : '\n' ∉ app)
    (hver : ver ≠ []) (hvv : '/' ∉ ver) (hnv : '\n' ∉ ver)
    (hname : name ≠ []) (hvn : '/' ∉ name) (hnn : '\n' ∉ name)
    (henc : enc ≠ []) (hne : '\n' ∉ enc) :
    parseTopicBody (app ++ '/' :: (ver ++ '/' :: (name ++ '/' :: enc)))
      = some { application_name := ⟨app⟩, version := ⟨ver⟩,
               content_topic_name := ⟨name⟩,
               encoding := Encoding.fromStr ⟨enc⟩ } := by
  unfold parseTopicBody
  simp only [slashSplits_append _ _ hva, slashSplits_append _ _ hvv,
    slashSplits_append _ _ hvn, List.findSome?_cons, happ, hver, hname, henc,
    hna, hnv, hnn, hne, if_neg]
  simp [happ, hver, hname, henc, hna, hnv, hnn, hne]

/-- Unfolding of the parser on a string that starts with a slash. -/
theorem contentTopicFromStr_mk (t : List Char) :
    contentTopicFromStr ⟨'/' :: t⟩ = parseTopicBody t := rfl

/-- The character list underlying the canonical topic string. -/
theorem canonicalTopic_data (app ver name enc : List Char) :
    canonicalTopic ⟨app⟩ ⟨ver⟩ ⟨name⟩ ⟨enc⟩
      = ⟨'/' :: (app ++ '/' :: (ver ++ '/' :: (name ++ '/' :: enc)))⟩ := by
  apply String.ext
  simp [canonicalTopic, String.data_append, List.append_assoc]

/-- Rendering the parsed canonical topic reproduces the canonical string
with the encoding component lowercased. -/
theorem contentTopicRender_canonical (app ver name enc : List Char) :
    contentTopicRender
        { application_name := ⟨app⟩, version := ⟨ver⟩,
          content_topic_name := ⟨name⟩, encoding := Encoding.fromStr ⟨enc⟩ }
      = canonicalTopic ⟨app⟩ ⟨ver⟩ ⟨name⟩ (rustToLower ⟨enc⟩) := by
  simp [contentTopicRender, canonicalTopic, encoding_render_fromStr]

/-- A hex digit produced by `hexDigitOfNat` decodes back to its value. -/
theorem hexCharVal_hexDigit (n : Nat) (h : n < 16) :
    hexCharVal (hexDigitOfNat n) = some n := by
  interval_cases n <;> decide

/-- No hex digit produced by `hexDigitOfNat` is the character `x`. -/
theorem hexDigit_ne_x (n : Nat) (h : n < 16) : hexDigitOfNat n ≠ 'x' := by
  interval_cases n <;> decide

/-- Hex decoding inverts the byte-to-hex rendering. -/
theorem hexDecode_flatMap (bytes : List Nat) (h : ∀ b ∈ bytes, b < 256) :
    hexDecode (bytes.flatMap byteToHex) = some bytes := by
  induction bytes with
  | nil => rfl
  | cons b rest ih =>
    have hb : b < 256 := h b (List.mem_cons_self b rest)
    have hdiv : b / 16 < 16 := by omega
    have hmod : b % 16 < 16 := Nat.mod_lt _ (by norm_num)
    have ih' := ih fun x hx => h x (List.mem_cons_of_mem b hx)
    have hcons : (b :: rest).flatMap byteToHex
        = hexDigitOfNat (b / 16) :: hexDigitOfNat (b % 16) ::
            rest.flatMap byteToHex := rfl
    rw [hcons]
    simp [hexDecode, hexCharVal_hexDigit _ hdiv, hexCharVal_hexDigit _ hmod,
      ih']
    omega

/-- The byte-to-hex-to-byte round trip of a 32-byte message hash. -/
theorem messageHash_roundtrip (bytes : List Nat) (hlen : bytes.length = 32)
    (h : ∀ b ∈ bytes, b < 256) :
    messageHashFromStr (to_hex_string bytes) = some bytes := by
  cases bytes with
  | nil => simp at hlen
  | cons b rest =>
    have hb : b < 256 := h b (List.mem_cons_self b rest)
    have hmod : b % 16 < 16 := Nat.mod_lt _ (by norm_num)
    have hcons : (b :: rest).flatMap byteToHex
        = hexDigitOfNat (b / 16) :: hexDigitOfNat (b % 16) ::
            rest.flatMap byteToHex := rfl
    have hstrip : strip0x ((b :: rest).flatMap byteToHex)
        = (b :: rest).flatMap byteToHex := by
      rw [hcons]
      simp [strip0x, hexDigit_ne_x _ hmod]
    unfold messageHashFromStr
    rw [show (to_hex_string (b :: rest)).data
        = (b :: rest).flatMap byteToHex from rfl]
    rw [hstrip, hexDecode_flatMap _ h]
    simp [hlen]

/-- C7 counterexample: the canonical-form string `/app/1/n/PROTO` is not
reproduced by parse-then-render — `Encoding::from_str` lowercases the
encoding component, so the rendering is `/app/1/n/proto`. -/
theorem C7_counterexample :
    (contentTopicFromStr "/app/1/n/PROTO").map contentTopicRender
        = some "/app/1/n/proto"
      ∧ some "/app/1/n/proto" ≠ some "/app/1/n/PROTO" := by
  refine ⟨by decide, by decide⟩

/-- C7 amended: for a content topic string in canonical form (nonempty,
slash-free, newline-free application, version and name components — the
regex rejects a component spanning a newline — and a nonempty,
newline-free ASCII encoding component, ASCII being the range on which the
embedded lowercasing coincides with `str::to_lowercase`), parsing and
re-rendering reproduces the string with the encoding component
lowercased — hence identically exactly when that component is already
lowercase; and the 32-byte message hash bytes→hex→bytes round trip is
exact. -/
theorem C7_roundtrips (app ver name enc : List Char) (bytes : List Nat)
    (happ : app ≠ []) (hva : '/' ∉ app) (hna : '\n' ∉ app)
    (hver : ver ≠ []) (hvv : '/' ∉ ver) (hnv : '\n' ∉ ver)
    (hname : name ≠ []) (hvn : '/' ∉ name) (hnn : '\n' ∉ name)
    (henc : enc ≠ []) (hne : '\n' ∉ enc)
    (_hascii : ∀ ch ∈ enc, ch.toNat < 128)
    (hlen : bytes.length = 32) (hb : ∀ b ∈ bytes, b < 256) :
    (contentTopicFromStr (canonicalTopic ⟨app⟩ ⟨ver⟩ ⟨name⟩ ⟨enc⟩)).map
        contentTopicRender
      = some (canonicalTopic ⟨app⟩ ⟨ver⟩ ⟨name⟩ (rustToLower ⟨enc⟩))
    ∧ (rustToLower ⟨enc⟩ = ⟨enc⟩ →
        (contentTopicFromStr (canonicalTopic ⟨app⟩ ⟨ver⟩ ⟨name⟩ ⟨enc⟩)).map
            contentTopicRender
          = some (canonicalTopic ⟨app⟩ ⟨ver⟩ ⟨name⟩ ⟨enc⟩))
    ∧ messageHashFromStr (to_hex_string bytes) = some bytes := by
  have hparse : contentTopicFromStr (canonicalTopic ⟨app⟩ ⟨ver⟩ ⟨name⟩ ⟨enc⟩)
      = some { application_name := ⟨app⟩, version := ⟨ver⟩,
               content_topic_name := ⟨name⟩,
               encoding := Encoding.fromStr ⟨enc⟩ } := by
    rw [canonicalTopic_data, contentTopicFromStr_mk,
      parseTopicBody_canonical app ver name enc happ hva hna hver hvv hnv
        hname hvn hnn henc hne]
  have hrender := contentTopicRender_canonical app ver name enc
  refine ⟨?_, fun hl => ?_, messageHash_roundtrip bytes hlen hb⟩
  · rw [hparse]
    simp [hrender]
  · rw [hparse]
    simp [hrender, hl]

/-- Witness for C7 at concrete inputs: the topic `/a/b/c/proto` (lowercase
encoding) round-trips identically, and the 32 bytes `0, …, 31` round-trip
through their hex rendering. -/
theorem C7_roundtrips_witness :
    (contentTopicFromStr
          (canonicalTopic ⟨['a']⟩ ⟨['b']⟩ ⟨['c']⟩
            ⟨['p', 'r', 'o', 't', 'o']⟩)).map contentTopicRender
        = some (canonicalTopic ⟨['a']⟩ ⟨['b']⟩ ⟨['c']⟩
            ⟨['p', 'r', 'o', 't', 'o']⟩)
      ∧ messageHashFromStr (to_hex_string (List.range 32))
          = some (List.range 32) :=
  ⟨(C7_roundtrips ['a'] ['b'] ['c'] ['p', 'r', 'o', 't', 'o']
        (List.range 32) (by decide) (by decide) (by decide) (by decide)
        (by decide) (by decide) (by decide) (by decide) (by decide)
        (by decide) (by decide) (by decide) (by decide) (by decide)).2.1
      (by decide),
   (C7_roundtrips ['a'] ['b'] ['c'] ['p', 'r', 'o', 't', 'o']
        (List.range 32) (by decide) (by decide) (by decide) (by decide)
        (by decide) (by decide) (by decide) (by decide) (by decide)
        (by decide) (by decide) (by decide) (by decide) (by decide)).2.2⟩

end Waku
